import Mathlib

/-!
Shallow embedding of `src/pikepdf/_io.py` (module `pikepdf._io`).

The module contains three functions:
  * `check_stream_is_usable(stream)` — raises `TypeError` when the stream is
    an instance of `io.TextIOBase`;
  * `check_different_files(file1, file2)` — under `suppress(FileNotFoundError)`,
    raises `ValueError` when `Path(file1) == Path(file2)` or
    `Path(file1).samefile(Path(file2))`;
  * `atomic_overwrite(filename)` — a generator context manager that yields a
    writable binary handle and commits or discards the write on scope exit.

The filesystem is modelled as a state `FS`: a partial map from paths to byte
contents, directory-existence and permission flags, a counter used by the
`NamedTemporaryFile` name generator, and one environment fault flag
(`diskFullAtFlush`, a flush failure such as ENOSPC surfacing at `tf.flush()`).
Each filesystem primitive used by the Python code is a function
`FS → Except Err FS` with POSIX semantics.  A whole run of `atomic_overwrite`
returns a `Run`: the propagated error (if any), the final filesystem, and a
trace of the filesystem calls attempted, so that claims about operations being
attempted or avoided ("destination is never opened for writing", "no rename
attempted", "without attempting to unlink") are statable.
-/

namespace PikepdfIO

/-- Byte strings are lists of byte values. -/
abbrev Bytes := List Nat

/-- A filesystem path, split as pathlib does into the parent directory and the
final component (`Path.parent`, `Path.name`). -/
structure FPath where
  parent : String
  name : String
deriving DecidableEq

/-- Python exception classes raised by the code under study.  `scopeErr code`
stands for a generic caller exception raised inside the write scope (the
caller may equally raise one of the named classes, e.g. `fileExists`); the
`code` payload lets us state that the very same exception is re-raised.
`runtimeError` is the `RuntimeError` that `contextlib` raises when the
generator yields a second time after `gen.throw` delivered the scope's
exception at the first yield. -/
inductive Err
  | fileExists
  | fileNotFound
  | permission
  | diskFull
  | scopeErr (code : Nat)
  | runtimeError
  | typeError
  | valueError
deriving DecidableEq

/-- Filesystem state.  `files` maps a path to the bytes stored there (`none`
when no file exists at the path); `dirs` says whether a directory exists;
`dirWritable` whether entries may be created/removed/renamed in it;
`fileWritable` whether an existing file may be opened for writing;
`tmpCounter` feeds `NamedTemporaryFile`'s fresh-name generator;
`diskFullAtFlush` injects an environment failure (e.g. ENOSPC) at the explicit
`tf.flush()` call of the temp-then-rename commit. -/
structure FS where
  files : FPath → Option Bytes
  dirs : String → Bool
  dirWritable : String → Bool
  fileWritable : FPath → Bool
  tmpCounter : Nat
  diskFullAtFlush : Bool

/-- Point update of the file map. -/
def setFile (fs : FS) (p : FPath) (v : Option Bytes) : FS :=
  { fs with files := fun q => if q = p then v else fs.files q }

/-- Trace events: one per filesystem call attempted by `atomic_overwrite`. -/
inductive Event
  | evOpenX (p : FPath)
  | evOpenAppend (p : FPath)
  | evWrite (p : FPath) (b : Bytes)
  | evMkTemp (p : FPath)
  | evUnlink (p : FPath)
  | evReplace (src dst : FPath)
  | evFlush (p : FPath)
deriving DecidableEq

/-- `filename.open("xb")`: exclusive creation.  Fails with `FileExistsError`
when the path exists, `FileNotFoundError` when the parent directory is
missing, `PermissionError` when the directory forbids creation; otherwise
creates an empty file. -/
def openX (fs : FS) (p : FPath) : Except Err FS :=
  match fs.files p with
  | some _ => .error .fileExists
  | none =>
    if fs.dirs p.parent then
      if fs.dirWritable p.parent then .ok (setFile fs p (some []))
      else .error .permission
    else .error .fileNotFound

/-- `filename.open("ab")`: append mode.  On an existing file it checks write
permission and leaves the content untouched; on a missing path it creates an
empty file (Python "ab" creates). -/
def openAppend (fs : FS) (p : FPath) : Except Err FS :=
  match fs.files p with
  | some _ => if fs.fileWritable p then .ok fs else .error .permission
  | none =>
    if fs.dirs p.parent then
      if fs.dirWritable p.parent then .ok (setFile fs p (some []))
      else .error .permission
    else .error .fileNotFound

/-- The `NamedTemporaryFile` name marker: `prefix=f".pikepdf.{filename.name}"`. -/
def stagingMark (d : FPath) : String := ".pikepdf." ++ d.name

/-- The staging path generated for destination `d` at generator state `k`:
sibling of `d`, name = marker followed by the generator's fresh part. -/
def tmpName (d : FPath) (k : Nat) : FPath :=
  ⟨d.parent, stagingMark d ++ Nat.repr k⟩

/-- Whether path `p` matches the staging-name pattern for destination `d`:
same parent directory, and the name starts with `".pikepdf." ++ d.name`. -/
def isStaging (d p : FPath) : Bool :=
  p.parent == d.parent && (stagingMark d).data.isPrefixOf p.name.data

/-- `NamedTemporaryFile(dir=filename.parent, prefix=..., delete=False)`:
creates an empty, freshly named file in the destination's directory and
advances the name generator.  Fails when the directory is missing or not
writable; the (never-retried in this model) case of a name collision fails
with `FileExistsError`. -/
def mkTemp (fs : FS) (d : FPath) : Except Err FS :=
  if fs.dirs d.parent then
    if fs.dirWritable d.parent then
      match fs.files (tmpName d fs.tmpCounter) with
      | some _ => .error .fileExists
      | none =>
        .ok { setFile fs (tmpName d fs.tmpCounter) (some [])
                with tmpCounter := fs.tmpCounter + 1 }
    else .error .permission
  else .error .fileNotFound

/-- `Path.unlink()`: fails with `FileNotFoundError` when the file is absent,
`PermissionError` when the directory forbids removal; otherwise removes. -/
def unlink (fs : FS) (p : FPath) : Except Err FS :=
  match fs.files p with
  | none => .error .fileNotFound
  | some _ =>
    if fs.dirWritable p.parent then .ok (setFile fs p none)
    else .error .permission

/-- `Path(tf.name).replace(filename)` — `os.replace`, an atomic rename that
overwrites the destination.  Fails when the source is absent or the directory
forbids the rename. -/
def replaceFile (fs : FS) (src dst : FPath) : Except Err FS :=
  match fs.files src with
  | none => .error .fileNotFound
  | some b =>
    if fs.dirWritable src.parent then
      .ok (setFile (setFile fs src none) dst (some b))
    else .error .permission

/-- Appending bytes through an open write handle on `p`. -/
def writeTo (fs : FS) (p : FPath) (b : Bytes) : FS :=
  setFile fs p (some ((fs.files p).getD [] ++ b))

/-- `tf.flush()`: fails when the injected flush fault (e.g. disk full) is set. -/
def flushTmp (fs : FS) : Except Err FS :=
  if fs.diskFullAtFlush then .error .diskFull else .ok fs

/-- The caller's write scope: it writes `data` through the yielded handle and
then either completes (`exc = none`) or raises (`exc = some e`).  Because
`atomic_overwrite` is a generator context manager, the scope's exception is
delivered by `gen.throw` at the `yield`, and its class matters: it may be any
exception, including `FileExistsError` — which the inner
`except FileExistsError` around the Phase-1 yield would catch. -/
structure Scope where
  data : Bytes
  exc : Option Err

/-- Result of one `atomic_overwrite` session: the propagated exception
(`none` on success), the final filesystem, and the trace of attempted calls. -/
structure Run where
  err : Option Err
  fs : FS
  tr : List Event

/-- The `except Exception` cleanup of the exclusive-create branch:
`with suppress(FileNotFoundError): filename.unlink()` then `raise` the
original exception.  An absent-file unlink failure is swallowed and the
original exception re-raised; any other unlink failure propagates instead. -/
def cleanupExcl (fs : FS) (d : FPath) (orig : Err) (tr : List Event) : Run :=
  match unlink fs d with
  | .ok fs2 => ⟨some orig, fs2, tr ++ [.evUnlink d]⟩
  | .error .fileNotFound => ⟨some orig, fs, tr ++ [.evUnlink d]⟩
  | .error e => ⟨some e, fs, tr ++ [.evUnlink d]⟩

/-- The `except Exception` cleanup of the temp-then-rename branch:
`tf.close(); Path(tf.name).unlink(); raise`.  The unlink is NOT guarded by
`suppress(FileNotFoundError)` here: any unlink failure, including the staging
file being absent, propagates in place of the original exception. -/
def cleanupTmp (fs : FS) (t : FPath) (orig : Err) (tr : List Event) : Run :=
  match unlink fs t with
  | .ok fs2 => ⟨some orig, fs2, tr ++ [.evUnlink t]⟩
  | .error e => ⟨some e, fs, tr ++ [.evUnlink t]⟩

/-- Phase 2 of `atomic_overwrite` (destination already exists): probe
writability with `filename.open("ab")`, create the staging file, run the
caller's scope on it; on scope success `tf.flush(); tf.close();
Path(tf.name).replace(filename)`, on scope failure the unguarded staging
unlink.  The `except Exception` around this yield treats every exception
class uniformly (including `FileExistsError`).  A failure in flush or replace
propagates out of the `with NamedTemporaryFile(..., delete=False)` block,
which on exit only closes the handle — it does not delete the staging
file. -/
def phase2 (fs : FS) (d : FPath) (sc : Scope) (tr : List Event) : Run :=
  match openAppend fs d with
  | .error e => ⟨some e, fs, tr ++ [.evOpenAppend d]⟩
  | .ok fs1 =>
    match mkTemp fs1 d with
    | .error e =>
      ⟨some e, fs1, tr ++ [.evOpenAppend d, .evMkTemp (tmpName d fs1.tmpCounter)]⟩
    | .ok fs2 =>
      let t := tmpName d fs1.tmpCounter
      let fs3 := writeTo fs2 t sc.data
      let tr3 := tr ++ [.evOpenAppend d, .evMkTemp t, .evWrite t sc.data]
      match sc.exc with
      | none =>
        match flushTmp fs3 with
        | .error e => ⟨some e, fs3, tr3 ++ [.evFlush t]⟩
        | .ok fs4 =>
          match replaceFile fs4 t d with
          | .error e => ⟨some e, fs4, tr3 ++ [.evFlush t, .evReplace t d]⟩
          | .ok fs5 => ⟨none, fs5, tr3 ++ [.evFlush t, .evReplace t d]⟩
      | some e =>
        cleanupTmp fs3 t e tr3

/-- The fall-through taken when the Phase-1 write scope raises
`FileExistsError`: the inner `except FileExistsError: pass` catches it at the
yield (the open had succeeded, so the destination now exists with whatever
the scope wrote) and control falls through to the Phase-2 code.  The probe
and the staging-file creation run; then the generator reaches its second
`yield`, so `contextlib` raises `RuntimeError` (generator did not stop after
throw).  Net effect when probe and staging creation succeed: the partially
written destination is kept, the just-created empty staging file is
abandoned, and a `RuntimeError` propagates instead of the scope's error.  A
probe or staging-creation failure propagates that failure instead. -/
def fallthroughFEE (fs : FS) (d : FPath) (tr : List Event) : Run :=
  match openAppend fs d with
  | .error e => ⟨some e, fs, tr ++ [.evOpenAppend d]⟩
  | .ok fs1 =>
    match mkTemp fs1 d with
    | .error e =>
      ⟨some e, fs1, tr ++ [.evOpenAppend d, .evMkTemp (tmpName d fs1.tmpCounter)]⟩
    | .ok fs2 =>
      ⟨some .runtimeError, fs2,
       tr ++ [.evOpenAppend d, .evMkTemp (tmpName d fs1.tmpCounter)]⟩

/-- Dispatch on the class of the exception the write scope raised at the
Phase-1 yield: `FileExistsError` is caught by the inner handler and falls
through to Phase 2 (`fallthroughFEE`); every other exception is caught by the
outer `except Exception` and runs the exclusive-create cleanup. -/
def phase1Throw (fs : FS) (d : FPath) (e : Err) (tr : List Event) : Run :=
  match e with
  | .fileExists => fallthroughFEE fs d tr
  | _ => cleanupExcl fs d e tr

/-- The whole `atomic_overwrite(filename)` context manager, from entry to
exit of the caller's write scope.  Phase 1 tries `filename.open("xb")`;
`FileExistsError` from that open switches (inner `except FileExistsError:
pass`) to `phase2`; an open failure of any other class runs `cleanupExcl`.
When the open succeeds and the scope raises, the inner handler also wraps the
yield, so the raised exception's class decides between falling through to
Phase 2 (`FileExistsError`) and the exclusive-create cleanup (anything
else) — see `phase1Throw`. -/
def atomic_overwrite (fs : FS) (d : FPath) (sc : Scope) : Run :=
  match openX fs d with
  | .ok fs1 =>
    let fs2 := writeTo fs1 d sc.data
    let tr2 := [Event.evOpenX d, Event.evWrite d sc.data]
    match sc.exc with
    | none => ⟨none, fs2, tr2⟩
    | some e => phase1Throw fs2 d e tr2
  | .error .fileExists => phase2 fs d sc [Event.evOpenX d]
  | .error e => cleanupExcl fs d e [Event.evOpenX d]

/-- A Python stream value, for `check_stream_is_usable`: whether it is an
instance of `io.TextIOBase` (a transcoding text stream) and whether it is
seekable. -/
structure PyStream where
  isTextIOBase : Bool
  seekable : Bool

/-- `check_stream_is_usable(stream)`: raises `TypeError` when
`isinstance(stream, TextIOBase)`; otherwise returns.  Note the code inspects
only the class of the stream — it never calls `stream.seekable()`. -/
def check_stream_is_usable (s : PyStream) : Except Err Unit :=
  if s.isTextIOBase then .error .typeError else .ok ()

/-- The identity view of the filesystem used by `check_different_files`:
whether a path exists, and the device-and-inode identity of the file there. -/
structure FileIds where
  present : FPath → Bool
  ident : FPath → Nat

/-- `Path.samefile`: `os.stat` both operands (raising `FileNotFoundError`
when either is absent) and compare device-and-inode identity. -/
def samefile (w : FileIds) (p q : FPath) : Except Err Bool :=
  if w.present p then
    if w.present q then .ok (w.ident p == w.ident q)
    else .error .fileNotFound
  else .error .fileNotFound

/-- `check_different_files(file1, file2)`: inside
`with suppress(FileNotFoundError)`, raise `ValueError` when
`Path(file1) == Path(file2)` or `Path(file1).samefile(Path(file2))`.  The
short-circuiting `or` tests path equality first, without touching the
filesystem; a `FileNotFoundError` out of `samefile` is suppressed, making the
whole check pass. -/
def check_different_files (w : FileIds) (file1 file2 : FPath) : Except Err Unit :=
  if file1 = file2 then .error .valueError
  else
    match samefile w file1 file2 with
    | .ok true => .error .valueError
    | .ok false => .ok ()
    | .error .fileNotFound => .ok ()
    | .error e => .error e

/-! ### Helper lemmas about staging names -/

lemma stagingMark_data_length (d : FPath) :
    (stagingMark d).data.length = 9 + d.name.data.length := by
  have h9 : (".pikepdf." : String).data.length = 9 := rfl
  rw [stagingMark, String.data_append, List.length_append, h9]

lemma staging_tmpName (d : FPath) (k : Nat) : isStaging d (tmpName d k) = true := by
  rw [isStaging, Bool.and_eq_true]
  constructor
  · simp [tmpName]
  · rw [tmpName, String.data_append, List.isPrefixOf_iff_prefix]
    exact List.prefix_append _ _

lemma staging_ne (d p : FPath) (h : isStaging d p = true) : p ≠ d := by
  intro he
  rw [isStaging, Bool.and_eq_true] at h
  have h2 : (stagingMark d).data.isPrefixOf p.name.data = true := h.2
  have h3 := (List.isPrefixOf_iff_prefix.mp h2).length_le
  rw [stagingMark_data_length, he] at h3
  omega

lemma tmpName_ne (d : FPath) (k : Nat) : tmpName d k ≠ d :=
  staging_ne d (tmpName d k) (staging_tmpName d k)

/-! ### Helper lemmas about the failure handlers -/

lemma cleanupExcl_err_ne_none (fs : FS) (d : FPath) (orig : Err)
    (tr : List Event) : (cleanupExcl fs d orig tr).err ≠ none := by
  unfold cleanupExcl
  cases h : unlink fs d with
  | ok fs2 => simp
  | error e => cases e <;> simp

lemma fallthroughFEE_err_ne_none (fs : FS) (d : FPath) (tr : List Event) :
    (fallthroughFEE fs d tr).err ≠ none := by
  unfold fallthroughFEE
  cases hoa : openAppend fs d with
  | error e => simp
  | ok fs1 =>
    cases hmk : mkTemp fs1 d with
    | error e => simp [hmk]
    | ok fs2 => simp [hmk]

lemma phase1Throw_err_ne_none (fs : FS) (d : FPath) (e : Err)
    (tr : List Event) : (phase1Throw fs d e tr).err ≠ none := by
  cases e <;> first
    | exact fallthroughFEE_err_ne_none fs d tr
    | exact cleanupExcl_err_ne_none fs d _ tr

/-! ### Guard checks: claims C8, C9, C10 -/

/-- Claim C8 (code bug evidence): `check_stream_is_usable` rejects a
text-transcoding stream with `TypeError`, but it accepts a binary
non-seekable stream, because the code only tests `isinstance(stream,
TextIOBase)` and never consults seekability — contradicting its own
docstring ("Check that a stream is seekable and binary") and the claim that
non-seekable inputs are rejected. -/
theorem c8_stream_check_ignores_seekability :
    check_stream_is_usable ⟨true, true⟩ = .error .typeError ∧
    check_stream_is_usable ⟨false, false⟩ = .ok () :=
  ⟨rfl, rfl⟩

/-- Claim C9: `check_different_files` raises `ValueError` when the operands
are equal paths, or when both exist with the same device-and-inode identity;
it returns normally when either operand is absent (the `FileNotFoundError`
from `samefile` is suppressed) or when the identities differ. -/
theorem c9_check_different_files (w : FileIds) (f1 f2 : FPath) :
    (f1 = f2 → check_different_files w f1 f2 = .error .valueError) ∧
    (f1 ≠ f2 → w.present f1 = true → w.present f2 = true →
      w.ident f1 = w.ident f2 →
      check_different_files w f1 f2 = .error .valueError) ∧
    (f1 ≠ f2 → (w.present f1 = false ∨ w.present f2 = false) →
      check_different_files w f1 f2 = .ok ()) ∧
    (f1 ≠ f2 → w.ident f1 ≠ w.ident f2 →
      check_different_files w f1 f2 = .ok ()) := by
  refine ⟨?_, ?_, ?_, ?_⟩
  · intro h
    simp [check_different_files, h]
  · intro hne hp1 hp2 hid
    simp [check_different_files, samefile, hne, hp1, hp2, hid]
  · intro hne hab
    rcases hab with hab | hab <;>
      simp [check_different_files, samefile, hne, hab]
  · intro hne hid
    cases hp1 : w.present f1 with
    | false => simp [check_different_files, samefile, hne, hp1]
    | true =>
      cases hp2 : w.present f2 with
      | false => simp [check_different_files, samefile, hne, hp1, hp2]
      | true =>
        have hbeq : (w.ident f1 == w.ident f2) = false := by
          simp [hid]
        simp [check_different_files, samefile, hne, hp1, hp2, hbeq]

/-- Witness for C9 at concrete inputs: two distinct paths naming the same
device-and-inode identity are rejected with `ValueError`. -/
theorem c9_check_different_files_witness :
    check_different_files ⟨fun _ => true, fun _ => 5⟩ ⟨"/d", "a"⟩ ⟨"/d", "b"⟩ =
      .error .valueError :=
  (c9_check_different_files ⟨fun _ => true, fun _ => 5⟩ ⟨"/d", "a"⟩ ⟨"/d", "b"⟩).2.1
    (by decide) rfl rfl rfl

/-- Claim C10: syntactic path equality is tested before any filesystem
access, so equal paths are rejected with `ValueError` regardless of the
filesystem — in particular even when nothing exists at the path. -/
theorem c10_path_equality_before_fs (w : FileIds) (f1 f2 : FPath) (h : f1 = f2) :
    check_different_files w f1 f2 = .error .valueError := by
  simp [check_different_files, h]

/-- Witness for C10: the same nonexistent path on both sides (a filesystem
where no file is present) is still rejected with `ValueError`. -/
theorem c10_path_equality_before_fs_witness :
    check_different_files ⟨fun _ => false, fun _ => 0⟩ ⟨"/d", "a"⟩ ⟨"/d", "a"⟩ =
      .error .valueError :=
  c10_path_equality_before_fs ⟨fun _ => false, fun _ => 0⟩ ⟨"/d", "a"⟩ ⟨"/d", "a"⟩ rfl

/-! ### Claims about the atomic writer: C5, C6, C7 -/

/-- Claim C5, amended: when the Phase-1 exclusive-create open fails for any
reason other than the path already existing, the failure propagates without
Phase 2 being entered — but the code does run the exclusive-create cleanup,
attempting to unlink the destination (with `FileNotFoundError` suppressed, a
no-op since the destination does not exist) before re-raising the original
open failure; the filesystem is left unchanged. -/
theorem c5_amended (fs : FS) (d : FPath) (sc : Scope) (e : Err)
    (h : openX fs d = .error e) (hne : e ≠ Err.fileExists) :
    atomic_overwrite fs d sc = ⟨some e, fs, [.evOpenX d, .evUnlink d]⟩ := by
  have hfd : fs.files d = none := by
    cases hf : fs.files d with
    | some b =>
      simp only [openX, hf] at h
      exact absurd (Except.error.inj h).symm hne
    | none => rfl
  cases e <;> first
    | exact absurd rfl hne
    | simp [atomic_overwrite, h, cleanupExcl, unlink, hfd]

/-- Fixture for C5: the destination's parent directory does not exist. -/
def cd5 : FPath := ⟨"/missing", "out.pdf"⟩

/-- Fixture for C5: empty filesystem with no directories. -/
def cfs5 : FS :=
  { files := fun _ => none, dirs := fun _ => false, dirWritable := fun _ => true,
    fileWritable := fun _ => true, tmpCounter := 0, diskFullAtFlush := false }

/-- Witness for the amended C5 at a concrete input: a missing parent
directory makes the exclusive open fail with `FileNotFoundError`, which is
propagated after the (suppressed, no-op) destination unlink attempt. -/
theorem c5_amended_witness :
    atomic_overwrite cfs5 cd5 ⟨[1], none⟩ =
      ⟨some .fileNotFound, cfs5, [.evOpenX cd5, .evUnlink cd5]⟩ :=
  c5_amended cfs5 cd5 ⟨[1], none⟩ .fileNotFound rfl (by decide)

/-- Counterexample to C5 as stated: with a missing parent directory the
exclusive-create open fails with an error other than `FileExistsError`, yet
the session trace does contain an attempt to unlink the destination — the
claim said no cleanup action would be attempted. -/
theorem c5_counterexample :
    openX cfs5 cd5 = .error .fileNotFound ∧
    Err.fileNotFound ≠ Err.fileExists ∧
    Event.evUnlink cd5 ∈ (atomic_overwrite cfs5 cd5 ⟨[1], none⟩).tr := by
  refine ⟨rfl, by decide, by decide⟩

/-- Claim C6, amended: in the exclusive-create cleanup branch, an unlink
failure because the destination is already absent is silently tolerated and
the original error is re-raised unchanged, while any other unlink failure
(e.g. permission) propagates; in the temp-then-rename cleanup branch the
staging unlink is not guarded by `suppress(FileNotFoundError)`, so any unlink
failure — including the staging file being absent — propagates in place of
the original write-scope error. -/
theorem c6_amended (fs : FS) (d t : FPath) (orig : Err) (tr : List Event) :
    (fs.files d = none →
      cleanupExcl fs d orig tr = ⟨some orig, fs, tr ++ [.evUnlink d]⟩) ∧
    (∀ b, fs.files d = some b → fs.dirWritable d.parent = false →
      (cleanupExcl fs d orig tr).err = some .permission) ∧
    (fs.files t = none →
      cleanupTmp fs t orig tr = ⟨some .fileNotFound, fs, tr ++ [.evUnlink t]⟩) ∧
    (∀ b, fs.files t = some b → fs.dirWritable t.parent = false →
      (cleanupTmp fs t orig tr).err = some .permission) := by
  refine ⟨?_, ?_, ?_, ?_⟩
  · intro h
    simp [cleanupExcl, unlink, h]
  · intro b h hw
    simp [cleanupExcl, unlink, h, hw]
  · intro h
    simp [cleanupTmp, unlink, h]
  · intro b h hw
    simp [cleanupTmp, unlink, h, hw]

/-- Fixture for C6: an empty filesystem (every path absent, all permissions
granted). -/
def cwEmpty : FS :=
  { files := fun _ => none, dirs := fun _ => true, dirWritable := fun _ => true,
    fileWritable := fun _ => true, tmpCounter := 0, diskFullAtFlush := false }

/-- Fixture for C6: a staging path. -/
def ct6 : FPath := ⟨"/d", ".pikepdf.out.pdf0"⟩

/-- Witness for the amended C6 at a concrete input: with the staging file
absent, the temp-then-rename cleanup propagates `FileNotFoundError` instead
of the original scope error. -/
theorem c6_amended_witness :
    cleanupTmp cwEmpty ct6 (Err.scopeErr 7) [] =
      ⟨some .fileNotFound, cwEmpty, [.evUnlink ct6]⟩ :=
  (c6_amended cwEmpty ct6 ct6 (Err.scopeErr 7) []).2.2.1 rfl

/-- Counterexample to C6 as stated: in the temp-then-rename cleanup branch an
absent staging file is NOT silently tolerated — the `FileNotFoundError` from
the unguarded unlink propagates, and the original write-scope error
(`scopeErr 7`) is not re-raised. -/
theorem c6_counterexample :
    cwEmpty.files ct6 = none ∧
    (cleanupTmp cwEmpty ct6 (Err.scopeErr 7) []).err = some Err.fileNotFound ∧
    (cleanupTmp cwEmpty ct6 (Err.scopeErr 7) []).err ≠ some (Err.scopeErr 7) := by
  refine ⟨rfl, rfl, by decide⟩

/-- Claim C7: for an existing destination, the Phase-2 writability probe
(`open("ab")` then immediate close) leaves the filesystem state — in
particular the destination's content — unchanged when it succeeds; and when
it fails, the failure propagates with the filesystem untouched and a trace
showing that no staging file was created, nothing was written, and no rename
was attempted. -/
theorem c7_probe (fs : FS) (d : FPath) (b0 : Bytes) (sc : Scope)
    (hd : fs.files d = some b0) :
    (fs.fileWritable d = true → openAppend fs d = .ok fs) ∧
    (fs.fileWritable d = false →
      atomic_overwrite fs d sc =
        ⟨some .permission, fs, [.evOpenX d, .evOpenAppend d]⟩) := by
  constructor
  · intro hw
    simp [openAppend, hd, hw]
  · intro hw
    simp [atomic_overwrite, openX, hd, phase2, openAppend, hw]

/-- Fixture for C7: the destination path. -/
def cd7 : FPath := ⟨"/d", "out.pdf"⟩

/-- Fixture for C7: the destination exists but is not writable by the
caller. -/
def cfs7 : FS :=
  { files := fun q => if q = cd7 then some [9] else none, dirs := fun _ => true,
    dirWritable := fun _ => true, fileWritable := fun _ => false,
    tmpCounter := 0, diskFullAtFlush := false }

/-- Witness for C7 at a concrete input: the probe on a non-writable existing
destination propagates `PermissionError`, leaving the filesystem unchanged,
with no staging file created and no rename attempted. -/
theorem c7_probe_witness :
    atomic_overwrite cfs7 cd7 ⟨[1], none⟩ =
      ⟨some .permission, cfs7, [.evOpenX cd7, .evOpenAppend cd7]⟩ :=
  (c7_probe cfs7 cd7 [9] ⟨[1], none⟩ (by simp [cfs7])).2 rfl

/-! ### Claims C2 and C3: failure during the write scope -/

/-- Claim C2: when the destination pre-exists (and is writable, its directory
existing and writable, the generated staging name free) and the caller's
write scope raises — any exception class: the Phase-2 `except Exception` is
uniform — the session re-raises the scope's own error, the staging file is
deleted, the destination's bytes are unchanged, and the trace shows that the
destination was only ever opened by the append-mode probe — every write went
to the staging file. -/
theorem c2_preexisting_failure_preserves (fs : FS) (d : FPath) (b0 : Bytes)
    (sc : Scope) (e : Err) (hd : fs.files d = some b0)
    (hw : fs.fileWritable d = true)
    (hdir : fs.dirs d.parent = true) (hdw : fs.dirWritable d.parent = true)
    (ht : fs.files (tmpName d fs.tmpCounter) = none) (hexc : sc.exc = some e) :
    (atomic_overwrite fs d sc).err = some e ∧
    (atomic_overwrite fs d sc).fs.files d = some b0 ∧
    (atomic_overwrite fs d sc).fs.files (tmpName d fs.tmpCounter) = none ∧
    (atomic_overwrite fs d sc).tr =
      [.evOpenX d, .evOpenAppend d, .evMkTemp (tmpName d fs.tmpCounter),
       .evWrite (tmpName d fs.tmpCounter) sc.data,
       .evUnlink (tmpName d fs.tmpCounter)] := by
  have hne := tmpName_ne d fs.tmpCounter
  have hne2 := hne.symm
  have hpar : (tmpName d fs.tmpCounter).parent = d.parent := rfl
  refine ⟨?_, ?_, ?_, ?_⟩ <;>
    simp [atomic_overwrite, openX, hd, phase2, openAppend, hw, mkTemp, hdir,
      hdw, ht, hexc, writeTo, setFile, cleanupTmp, unlink, hpar, hne, hne2]

/-- Claim C3, amended: when the destination does not pre-exist (and its
directory exists and is writable) and the caller's write scope raises an
exception other than `FileExistsError` after the exclusive-create open
succeeded, the session unlinks the partially written destination and
re-raises the scope's error, so the destination does not exist afterwards.
(As stated, the claim is false: a scope-raised `FileExistsError` is caught by
the inner `except FileExistsError` at the yield and falls through to Phase 2,
so the destination survives with the partial bytes — see the
counterexample.) -/
theorem c3_amended_fresh_failure_unlinks (fs : FS) (d : FPath) (sc : Scope)
    (e : Err) (hd : fs.files d = none) (hdir : fs.dirs d.parent = true)
    (hdw : fs.dirWritable d.parent = true) (hexc : sc.exc = some e)
    (hne : e ≠ Err.fileExists) :
    (atomic_overwrite fs d sc).err = some e ∧
    (atomic_overwrite fs d sc).fs.files d = none ∧
    (atomic_overwrite fs d sc).tr = [.evOpenX d, .evWrite d sc.data, .evUnlink d] := by
  cases e <;> first
    | exact absurd rfl hne
    | (refine ⟨?_, ?_, ?_⟩ <;>
        simp [atomic_overwrite, openX, hd, hdir, hdw, hexc, phase1Throw,
          writeTo, setFile, cleanupExcl, unlink])

/-- Fixture for C2: destination path. -/
def cd2 : FPath := ⟨"/d", "out.pdf"⟩

/-- Fixture for C2: the destination exists with content `[9]`; everything is
writable; no staging file exists. -/
def cfs2 : FS :=
  { files := fun q => if q = cd2 then some [9] else none, dirs := fun _ => true,
    dirWritable := fun _ => true, fileWritable := fun _ => true,
    tmpCounter := 0, diskFullAtFlush := false }

/-- Witness for C2 at a concrete input: the scope raises (`scopeErr 7`) after
writing `[1, 2]`; the destination still holds `[9]`, the staging file is
gone, and the trace shows writes only to the staging file. -/
theorem c2_preexisting_failure_preserves_witness :
    (atomic_overwrite cfs2 cd2 ⟨[1, 2], some (.scopeErr 7)⟩).err =
      some (.scopeErr 7) ∧
    (atomic_overwrite cfs2 cd2 ⟨[1, 2], some (.scopeErr 7)⟩).fs.files cd2 =
      some [9] ∧
    (atomic_overwrite cfs2 cd2 ⟨[1, 2], some (.scopeErr 7)⟩).fs.files
      (tmpName cd2 0) = none ∧
    (atomic_overwrite cfs2 cd2 ⟨[1, 2], some (.scopeErr 7)⟩).tr =
      [.evOpenX cd2, .evOpenAppend cd2, .evMkTemp (tmpName cd2 0),
       .evWrite (tmpName cd2 0) [1, 2], .evUnlink (tmpName cd2 0)] :=
  c2_preexisting_failure_preserves cfs2 cd2 [9] ⟨[1, 2], some (.scopeErr 7)⟩
    (.scopeErr 7) (by simp [cfs2]) rfl rfl rfl (by decide) rfl

/-- Fixture for C3: destination path. -/
def cd3 : FPath := ⟨"/d", "new.pdf"⟩

/-- Witness for the amended C3 at a concrete input: the destination does not
exist, the scope raises a non-`FileExistsError` exception (`scopeErr 3`)
after writing `[1]`; afterwards the destination still does not exist and the
trace shows the cleanup unlink. -/
theorem c3_amended_fresh_failure_unlinks_witness :
    (atomic_overwrite cwEmpty cd3 ⟨[1], some (.scopeErr 3)⟩).err =
      some (.scopeErr 3) ∧
    (atomic_overwrite cwEmpty cd3 ⟨[1], some (.scopeErr 3)⟩).fs.files cd3 = none ∧
    (atomic_overwrite cwEmpty cd3 ⟨[1], some (.scopeErr 3)⟩).tr =
      [.evOpenX cd3, .evWrite cd3 [1], .evUnlink cd3] :=
  c3_amended_fresh_failure_unlinks cwEmpty cd3 ⟨[1], some (.scopeErr 3)⟩
    (.scopeErr 3) rfl rfl rfl rfl (by decide)

/-- Counterexample to C3 as stated: over a fresh destination, a write scope
that raises `FileExistsError` after writing `[1]` is caught by the inner
handler at the yield and falls through to Phase 2.  Afterwards the
destination still exists, holding the partial bytes `[1]`, an abandoned
empty staging file sits next to it, and a `RuntimeError` (generator did not
stop after throw) propagates instead of the scope's error — the claim said
the destination would be unlinked and the error re-raised. -/
theorem c3_counterexample :
    cwEmpty.files cd3 = none ∧
    (atomic_overwrite cwEmpty cd3 ⟨[1], some .fileExists⟩).fs.files cd3 =
      some [1] ∧
    (atomic_overwrite cwEmpty cd3 ⟨[1], some .fileExists⟩).err =
      some .runtimeError ∧
    (atomic_overwrite cwEmpty cd3 ⟨[1], some .fileExists⟩).fs.files
      (tmpName cd3 0) = some [] := by
  refine ⟨rfl, rfl, rfl, rfl⟩

/-! ### Claim C1: commit correctness -/

/-- Claim C1: whenever a session completes without error, the destination
holds exactly the bytes the scope wrote through the yielded handle — in
exclusive-create mode (destination did not pre-exist) they were written
directly to the destination, and in temp-then-rename mode (destination
pre-existed) they were written to the staging file, flushed, and renamed onto
the destination, as the traces of the two modes show. -/
theorem c1_commit_correctness (fs : FS) (d : FPath) (sc : Scope)
    (h : (atomic_overwrite fs d sc).err = none) :
    (atomic_overwrite fs d sc).fs.files d = some sc.data ∧
    (fs.files d = none →
      (atomic_overwrite fs d sc).tr = [.evOpenX d, .evWrite d sc.data]) ∧
    (∀ b0, fs.files d = some b0 →
      (atomic_overwrite fs d sc).tr =
        [.evOpenX d, .evOpenAppend d, .evMkTemp (tmpName d fs.tmpCounter),
         .evWrite (tmpName d fs.tmpCounter) sc.data,
         .evFlush (tmpName d fs.tmpCounter),
         .evReplace (tmpName d fs.tmpCounter) d]) := by
  have hne := tmpName_ne d fs.tmpCounter
  have hne2 := hne.symm
  have hpar : (tmpName d fs.tmpCounter).parent = d.parent := rfl
  cases hf : fs.files d with
  | none =>
    cases hdir : fs.dirs d.parent with
    | false =>
      simp [atomic_overwrite, openX, hf, hdir, cleanupExcl, unlink] at h
    | true =>
      cases hdw : fs.dirWritable d.parent with
      | false =>
        simp [atomic_overwrite, openX, hf, hdir, hdw, cleanupExcl, unlink] at h
      | true =>
        cases hexc : sc.exc with
        | some e =>
          exfalso
          have hrun : atomic_overwrite fs d sc =
              phase1Throw (writeTo (setFile fs d (some [])) d sc.data) d e
                [Event.evOpenX d, Event.evWrite d sc.data] := by
            simp [atomic_overwrite, openX, hf, hdir, hdw, hexc]
          rw [hrun] at h
          exact phase1Throw_err_ne_none _ _ _ _ h
        | none =>
          refine ⟨?_, ?_, ?_⟩
          · simp [atomic_overwrite, openX, hf, hdir, hdw, hexc, writeTo, setFile]
          · intro _
            simp [atomic_overwrite, openX, hf, hdir, hdw, hexc]
          · intro b0 hb
            simp at hb
  | some b0 =>
    cases hw : fs.fileWritable d with
    | false =>
      simp [atomic_overwrite, openX, hf, phase2, openAppend, hw] at h
    | true =>
      cases hdir : fs.dirs d.parent with
      | false =>
        simp [atomic_overwrite, openX, hf, phase2, openAppend, hw, mkTemp,
          hdir] at h
      | true =>
        cases hdw : fs.dirWritable d.parent with
        | false =>
          simp [atomic_overwrite, openX, hf, phase2, openAppend, hw, mkTemp,
            hdir, hdw] at h
        | true =>
          cases ht : fs.files (tmpName d fs.tmpCounter) with
          | some b1 =>
            simp [atomic_overwrite, openX, hf, phase2, openAppend, hw, mkTemp,
              hdir, hdw, ht] at h
          | none =>
            cases hexc : sc.exc with
            | some e =>
              simp [atomic_overwrite, openX, hf, phase2, openAppend, hw, mkTemp,
                hdir, hdw, ht, hexc, writeTo, setFile, cleanupTmp, unlink,
                hpar] at h
            | none =>
              cases hfl : fs.diskFullAtFlush with
              | true =>
                simp [atomic_overwrite, openX, hf, phase2, openAppend, hw,
                  mkTemp, hdir, hdw, ht, hexc, writeTo, setFile, flushTmp,
                  hfl] at h
              | false =>
                refine ⟨?_, ?_, ?_⟩
                · simp [atomic_overwrite, openX, hf, phase2, openAppend, hw,
                    mkTemp, hdir, hdw, ht, hexc, writeTo, setFile, flushTmp,
                    hfl, replaceFile, hpar, hne, hne2]
                · intro hcontra
                  simp at hcontra
                · intro b1 hb
                  simp [atomic_overwrite, openX, hf, phase2, openAppend, hw,
                    mkTemp, hdir, hdw, ht, hexc, writeTo, setFile, flushTmp,
                    hfl, replaceFile, hpar]

/-- Fixture for C1: a pre-existing destination (temp-then-rename mode). -/
def cd1 : FPath := ⟨"/d", "doc.pdf"⟩

/-- Fixture for C1: the destination exists with content `[9]`. -/
def cfs1 : FS :=
  { files := fun q => if q = cd1 then some [9] else none, dirs := fun _ => true,
    dirWritable := fun _ => true, fileWritable := fun _ => true,
    tmpCounter := 0, diskFullAtFlush := false }

/-- Witness for C1 at a concrete input: a successful session over an existing
destination ends with the destination holding exactly the written bytes, and
the trace shows the temp-then-rename commit. -/
theorem c1_commit_correctness_witness :
    (atomic_overwrite cfs1 cd1 ⟨[1, 2], none⟩).fs.files cd1 = some [1, 2] ∧
    (cfs1.files cd1 = none →
      (atomic_overwrite cfs1 cd1 ⟨[1, 2], none⟩).tr =
        [.evOpenX cd1, .evWrite cd1 [1, 2]]) ∧
    (∀ b0, cfs1.files cd1 = some b0 →
      (atomic_overwrite cfs1 cd1 ⟨[1, 2], none⟩).tr =
        [.evOpenX cd1, .evOpenAppend cd1, .evMkTemp (tmpName cd1 0),
         .evWrite (tmpName cd1 0) [1, 2], .evFlush (tmpName cd1 0),
         .evReplace (tmpName cd1 0) cd1]) :=
  c1_commit_correctness cfs1 cd1 ⟨[1, 2], none⟩ (by decide)

/-! ### Claim C4: staging leakage -/

/-- Claim C4, amended: provided the flush of the staging file does not fail
and the write scope does not raise `FileExistsError`, every path matching the
staging-name pattern holds, after the session, exactly what it held before —
in particular the session's own staging file, if created, is always renamed
onto the destination or deleted, and never remains.  (As stated, the claim is
false in two ways: a failure at `tf.flush()` — or between it and a completed
rename — escapes the `with NamedTemporaryFile(..., delete=False)` block,
which only closes the handle, leaving the staging file behind, see the
counterexample; and a scope-raised `FileExistsError` over a fresh destination
falls through into temp-then-rename mode and abandons the just-created
staging file, see the C3 analysis of the same fall-through.) -/
theorem c4_amended_no_staging_leak (fs : FS) (d : FPath) (sc : Scope)
    (hfl : fs.diskFullAtFlush = false)
    (hfee : sc.exc ≠ some Err.fileExists) :
    ∀ p, isStaging d p = true →
      (atomic_overwrite fs d sc).fs.files p = fs.files p := by
  intro p hp
  have hpd : p ≠ d := staging_ne d p hp
  have hpar : (tmpName d fs.tmpCounter).parent = d.parent := rfl
  cases hf : fs.files d with
  | none =>
    cases hdir : fs.dirs d.parent with
    | false =>
      simp [atomic_overwrite, openX, hf, hdir, cleanupExcl, unlink]
    | true =>
      cases hdw : fs.dirWritable d.parent with
      | false =>
        simp [atomic_overwrite, openX, hf, hdir, hdw, cleanupExcl, unlink]
      | true =>
        cases hexc : sc.exc with
        | none =>
          simp [atomic_overwrite, openX, hf, hdir, hdw, hexc, writeTo,
            setFile, hpd]
        | some e =>
          cases e <;> first
            | exact absurd hexc hfee
            | simp [atomic_overwrite, openX, hf, hdir, hdw, hexc, phase1Throw,
                writeTo, setFile, cleanupExcl, unlink, hpd]
  | some b0 =>
    cases hw : fs.fileWritable d with
    | false =>
      simp [atomic_overwrite, openX, hf, phase2, openAppend, hw]
    | true =>
      cases hdir : fs.dirs d.parent with
      | false =>
        simp [atomic_overwrite, openX, hf, phase2, openAppend, hw, mkTemp,
          hdir]
      | true =>
        cases hdw : fs.dirWritable d.parent with
        | false =>
          simp [atomic_overwrite, openX, hf, phase2, openAppend, hw, mkTemp,
            hdir, hdw]
        | true =>
          cases ht : fs.files (tmpName d fs.tmpCounter) with
          | some b1 =>
            simp [atomic_overwrite, openX, hf, phase2, openAppend, hw, mkTemp,
              hdir, hdw, ht]
          | none =>
            cases hexc : sc.exc with
            | some e =>
              by_cases hpt : p = tmpName d fs.tmpCounter
              · subst hpt
                simp [atomic_overwrite, openX, hf, phase2, openAppend, hw,
                  mkTemp, hdir, hdw, ht, hexc, writeTo, setFile, cleanupTmp,
                  unlink, hpar]
              · simp [atomic_overwrite, openX, hf, phase2, openAppend, hw,
                  mkTemp, hdir, hdw, ht, hexc, writeTo, setFile, cleanupTmp,
                  unlink, hpar, hpt, hpd]
            | none =>
              by_cases hpt : p = tmpName d fs.tmpCounter
              · subst hpt
                simp [atomic_overwrite, openX, hf, phase2, openAppend, hw,
                  mkTemp, hdir, hdw, ht, hexc, writeTo, setFile, flushTmp,
                  hfl, replaceFile, hpar, hpd]
              · simp [atomic_overwrite, openX, hf, phase2, openAppend, hw,
                  mkTemp, hdir, hdw, ht, hexc, writeTo, setFile, flushTmp,
                  hfl, replaceFile, hpar, hpt, hpd]

/-- Fixture for C4: destination path. -/
def cd4 : FPath := ⟨"/d", "out.pdf"⟩

/-- Fixture for C4: the destination exists, everything is permitted, but the
flush of the staging file will fail (e.g. the disk fills up). -/
def cfs4 : FS :=
  { files := fun q => if q = cd4 then some [9] else none, dirs := fun _ => true,
    dirWritable := fun _ => true, fileWritable := fun _ => true,
    tmpCounter := 0, diskFullAtFlush := true }

/-- Fixture for C4: the staging path the session generates. -/
def cT4 : FPath := tmpName cd4 0

/-- Witness for the amended C4 at a concrete input: a failed session (the
scope raises `scopeErr 7`, no flush fault) over an existing destination
leaves the staging path exactly as it was before — absent. -/
theorem c4_amended_no_staging_leak_witness :
    (atomic_overwrite cfs2 cd2 ⟨[1, 2], some (.scopeErr 7)⟩).fs.files
      (tmpName cd2 0) = cfs2.files (tmpName cd2 0) :=
  c4_amended_no_staging_leak cfs2 cd2 ⟨[1, 2], some (.scopeErr 7)⟩ rfl
    (by decide) (tmpName cd2 0) (staging_tmpName cd2 0)

/-- Counterexample to C4 as stated: a session that enters temp-then-rename
mode (the trace shows the staging file being created) over a clean directory,
but whose `tf.flush()` fails, ends with the staging file still present —
holding the scope's bytes — in the destination's parent directory. -/
theorem c4_counterexample :
    (∀ p, isStaging cd4 p = true → cfs4.files p = none) ∧
    Event.evMkTemp cT4 ∈ (atomic_overwrite cfs4 cd4 ⟨[1, 2], none⟩).tr ∧
    isStaging cd4 cT4 = true ∧
    (atomic_overwrite cfs4 cd4 ⟨[1, 2], none⟩).fs.files cT4 = some [1, 2] := by
  refine ⟨?_, ?_, ?_, ?_⟩
  · intro p hp
    have := staging_ne cd4 p hp
    simp [cfs4, this]
  · decide
  · exact staging_tmpName cd4 0
  · rfl

end PikepdfIO
